import Mathlib

/-!
Shallow embedding of soapjk/stund (src/main.go), an RFC 5389 STUN binding
server, together with the behaviour of the gortc.io/stun library calls that
main.go makes (IsMessage, Message.Write/Decode, Message.Build with the
setters used by basicProcess).  Datagram bytes are modelled as List Nat
(each entry one octet), Go strings as List Char where character-level
reasoning is needed.  The library functions are modelled from the spec's
wire-format description (20-byte header with magic cookie and body length,
4-byte aligned type-length-value attributes) since the library source is an
external dependency of the repository.
-/

namespace Stund

/-- Big-endian 16-bit read of two octets. -/
def u16be (b0 b1 : Nat) : Nat := b0 * 256 + b1

/-- Big-endian 32-bit read of four octets. -/
def u32be (b0 b1 b2 b3 : Nat) : Nat := ((b0 * 256 + b1) * 256 + b2) * 256 + b3

/-- The fixed 4-byte magic cookie every STUN message carries at offset 4. -/
def magicCookie : Nat := 0x2112A442

/-- Size of the fixed STUN message header (bytes). -/
def messageHeaderSize : Nat := 20

/-- The 16-bit message-type field, read from bytes 0..1 of a datagram. -/
def headerType (b : List Nat) : Nat := u16be (b.getD 0 0) (b.getD 1 0)

/-- The 16-bit body-length field, read from bytes 2..3 of a datagram. -/
def headerLen (b : List Nat) : Nat := u16be (b.getD 2 0) (b.getD 3 0)

/-- The 32-bit cookie field, read from bytes 4..7 of a datagram. -/
def headerCookie (b : List Nat) : Nat :=
  u32be (b.getD 4 0) (b.getD 5 0) (b.getD 6 0) (b.getD 7 0)

/-- Modelled from the spec: stun.IsMessage checks the length is at least the
header size and the magic cookie matches. -/
def isMessage (b : List Nat) : Bool :=
  decide (messageHeaderSize ≤ b.length) && decide (headerCookie b = magicCookie)

/-- Raw value of the 16-bit binding-request message type. -/
def bindingRequestType : Nat := 0x0001

/-- Raw value of the 16-bit binding-success-response message type. -/
def bindingSuccessType : Nat := 0x0101

/-- Errors surfaced by the modelled stun decoder. -/
inductive DecodeError where
  | unexpectedHeaderEOF
  | invalidMagicCookie
  | bufferTooSmall
  | attrHeaderTruncated
  | attrSizeOverflow
deriving DecidableEq

/-- One decoded type-length-value attribute, unknown types kept raw. -/
structure RawAttr where
  typ : Nat
  value : List Nat
deriving DecidableEq

/-- A decoded STUN message: raw 16-bit type, the 12 transaction-id bytes, and
the ordered attribute list. -/
structure StunMessage where
  typ : Nat
  transactionID : List Nat
  attributes : List RawAttr
deriving DecidableEq

/-- Length rounded up to the next 4-byte boundary (attribute value padding). -/
def nearestPaddedLength (l : Nat) : Nat := ((l + 3) / 4) * 4

/-- Modelled from the spec: the attribute-walking loop of stun
Message.Decode over the body slice.  Each iteration consumes a 4-byte
(type, length) header plus the padded value; fewer than 4 remaining bytes is
a truncated attribute header, and a declared (padded) value longer than what
remains is an attribute size overflow.  The fuel argument only bounds the
number of loop iterations; since every iteration consumes at least 4 bytes
of a nonempty buffer, fuel equal to the buffer length is never exhausted. -/
def decodeAttrsFuel : Nat → List Nat → Except DecodeError (List RawAttr)
  | _, [] => Except.ok []
  | 0, _ :: _ => Except.error DecodeError.attrHeaderTruncated
  | fuel + 1, b0 :: bs =>
    let buf := b0 :: bs
    if buf.length < 4 then Except.error DecodeError.attrHeaderTruncated
    else
      let l := u16be (buf.getD 2 0) (buf.getD 3 0)
      let rest := buf.drop 4
      let padded := nearestPaddedLength l
      if rest.length < padded then Except.error DecodeError.attrSizeOverflow
      else
        match decodeAttrsFuel fuel (rest.drop padded) with
        | Except.error e => Except.error e
        | Except.ok attrs =>
            Except.ok (RawAttr.mk (u16be (buf.getD 0 0) (buf.getD 1 0)) (rest.take l) :: attrs)

/-- Attribute decoding with enough fuel for any input. -/
def decodeAttrs (buf : List Nat) : Except DecodeError (List RawAttr) :=
  decodeAttrsFuel buf.length buf

/-- Modelled from the spec: stun Message.Decode (which Message.Write calls
after copying the bytes in).  Rejects buffers shorter than the 20-byte
header, a wrong magic cookie, and a declared body length exceeding the bytes
present, in that order; then walks the body's attributes. -/
def decode (buf : List Nat) : Except DecodeError StunMessage :=
  if buf.length < messageHeaderSize then Except.error DecodeError.unexpectedHeaderEOF
  else if headerCookie buf ≠ magicCookie then Except.error DecodeError.invalidMagicCookie
  else if buf.length < messageHeaderSize + headerLen buf then
    Except.error DecodeError.bufferTooSmall
  else
    match decodeAttrs ((buf.drop messageHeaderSize).take (headerLen buf)) with
    | Except.error e => Except.error e
    | Except.ok attrs =>
        Except.ok (StunMessage.mk (headerType buf) ((buf.drop 8).take 12) attrs)

/-- The SOFTWARE attribute text installed by stun.NewSoftware in main.go. -/
def softwareName : String := "gortc/stund"

/-- Decoded view of the attributes the response builder appends.  The
XOR-MAPPED-ADDRESS attribute is stored here at the decoded (ip, port) level;
on the wire its value bytes are XOR-obfuscated against the magic cookie and
transaction id.  The FINGERPRINT value is a CRC-32 of all preceding encoded
bytes XORed with a fixed constant; its byte value is not needed by any claim
here, only its identity and position. -/
inductive Attr where
  | software (text : String)
  | xorMappedAddress (ip : List Nat) (port : Nat)
  | fingerprintAttr
deriving DecidableEq

/-- A message under construction by stun Message.Build: type, transaction id
and the ordered attributes appended so far. -/
structure BuiltMessage where
  typ : Nat
  transactionID : List Nat
  attributes : List Attr
deriving DecidableEq

/-- The setters basicProcess passes to res.Build, in the library's decoded
view: the request message copies its transaction id into the target,
stun.BindingSuccess sets the message type, and the remaining setters append
one attribute each. -/
inductive Setter where
  | copyTransactionID (src : StunMessage)
  | setType (t : Nat)
  | addSoftware (text : String)
  | addXorMappedAddress (ip : List Nat) (port : Nat)
  | addFingerprint

/-- Modelled from the spec: applying one Build setter to the message being
assembled. -/
def applySetter (m : BuiltMessage) : Setter → BuiltMessage
  | Setter.copyTransactionID src => BuiltMessage.mk m.typ src.transactionID m.attributes
  | Setter.setType t => BuiltMessage.mk t m.transactionID m.attributes
  | Setter.addSoftware s =>
      BuiltMessage.mk m.typ m.transactionID (m.attributes ++ [Attr.software s])
  | Setter.addXorMappedAddress ip port =>
      BuiltMessage.mk m.typ m.transactionID (m.attributes ++ [Attr.xorMappedAddress ip port])
  | Setter.addFingerprint =>
      BuiltMessage.mk m.typ m.transactionID (m.attributes ++ [Attr.fingerprintAttr])

/-- The freshly reset message Build starts from. -/
def emptyMessage : BuiltMessage := BuiltMessage.mk 0 (List.replicate 12 0) []

/-- Modelled from the spec: stun Message.Build resets the target and applies
the setters left to right. -/
def buildApply (setters : List Setter) : BuiltMessage :=
  setters.foldl applySetter emptyMessage

/-- The exact Build call made by basicProcess: res.Build(req,
stun.BindingSuccess, software, XORMappedAddress with the sender's ip/port,
stun.Fingerprint). -/
def buildBindingSuccess (req : StunMessage) (ip : List Nat) (port : Nat) : BuiltMessage :=
  buildApply [Setter.copyTransactionID req, Setter.setType bindingSuccessType,
    Setter.addSoftware softwareName, Setter.addXorMappedAddress ip port,
    Setter.addFingerprint]

/-- The runtime variants a net.Addr can take in this model: the supported
datagram address, the stream address, or anything else.  basicProcess
type-switches on this. -/
inductive GoAddr where
  | udp (ip : List Nat) (port : Nat)
  | tcp (ip : List Nat) (port : Nat)
  | other (description : String)
deriving DecidableEq

/-- Whether the address is the one variant basicProcess's switch accepts. -/
def GoAddr.isUDP : GoAddr → Bool
  | GoAddr.udp _ _ => true
  | _ => false

/-- Outcome of basicProcess: the error it returns, the response it builds,
or the panic raised by the default arm of its address type switch. -/
inductive ProcOutcome where
  | ok (res : BuiltMessage)
  | errNotASTUNMessage
  | errFailedToReadMessage (e : DecodeError)
  | panickedUnknownAddr (a : GoAddr)
deriving DecidableEq

/-- basicProcess from main.go lines 56-83: reject non-STUN bytes with
errNotSTUNMessage, propagate a req.Write (decode) failure wrapped, then
type-switch on the sender address — the UDP arm builds the binding success
response, every other variant panics. -/
def basicProcess (addr : GoAddr) (b : List Nat) : ProcOutcome :=
  if !isMessage b then ProcOutcome.errNotASTUNMessage
  else
    match decode b with
    | Except.error e => ProcOutcome.errFailedToReadMessage e
    | Except.ok req =>
      match addr with
      | GoAddr.udp ip port => ProcOutcome.ok (buildBindingSuccess req ip port)
      | a => ProcOutcome.panickedUnknownAddr a

/-- What one blocking ReadFrom call yields: a socket-level error, or a
datagram with its sender address. -/
inductive ReadResult where
  | readErr (e : String)
  | datagram (addr : GoAddr) (data : List Nat)

/-- What WriteTo would return if serveConn reaches it this iteration. -/
inductive SendResult where
  | sendOK
  | sendFail (e : String)

/-- The environment of one serveConn iteration on a live (non-nil)
connection: the read outcome and the send outcome the socket would give. -/
structure ConnEvent where
  read : ReadResult
  send : SendResult

/-- The error values serveConn can return: the stun decode error from
req.Write, or the WriteTo error. -/
inductive GoError where
  | decodeErr (e : DecodeError)
  | sendErr (e : String)
deriving DecidableEq

/-- Observable result of one serveConn call: the error it returns (none for
a nil return), the WriteTo calls it performed (response and destination),
and whether it panicked instead of returning. -/
structure ServeConnResult where
  err : Option GoError
  sent : List (BuiltMessage × GoAddr)
  panicked : Bool
deriving DecidableEq

/-- serveConn from main.go lines 85-112.  A nil connection (modelled as
none) returns nil at once.  A ReadFrom error is logged and serveConn returns
nil.  A req.Write (decode) failure is logged and RETURNED.  A basicProcess
error is absorbed (nil return) whether or not it is errNotSTUNMessage, and a
basicProcess panic propagates.  Otherwise the response is sent to the sender
and the WriteTo error, if any, is returned. -/
def serveConn : Option ConnEvent → ServeConnResult
  | none => ServeConnResult.mk none [] false
  | some ev =>
    match ev.read with
    | ReadResult.readErr _ => ServeConnResult.mk none [] false
    | ReadResult.datagram addr data =>
      match decode data with
      | Except.error e => ServeConnResult.mk (some (GoError.decodeErr e)) [] false
      | Except.ok _ =>
        match basicProcess addr data with
        | ProcOutcome.errNotASTUNMessage => ServeConnResult.mk none [] false
        | ProcOutcome.errFailedToReadMessage _ => ServeConnResult.mk none [] false
        | ProcOutcome.panickedUnknownAddr _ => ServeConnResult.mk none [] true
        | ProcOutcome.ok res =>
          match ev.send with
          | SendResult.sendOK => ServeConnResult.mk none [(res, addr)] false
          | SendResult.sendFail e =>
              ServeConnResult.mk (some (GoError.sendErr e)) [(res, addr)] false

/-- A packet connection as Serve sees it: nil, or a live connection whose
iteration-indexed behaviour is the given event stream. -/
inductive GoConn where
  | nilConn
  | conn (events : Nat → ConnEvent)

/-- The event (if any) the connection presents at iteration i. -/
def connAt : GoConn → Nat → Option ConnEvent
  | GoConn.nilConn, _ => none
  | GoConn.conn f, i => some (f i)

/-- Observable state of the Serve loop after a bounded number of
iterations. -/
inductive ServeOutcome where
  | stillRunning
  | exited (e : GoError)
  | panickedOut
deriving DecidableEq

/-- The Serve loop of main.go lines 115-128, observed for fuel iterations
starting at iteration i: each iteration runs serveConn; a panic propagates,
a non-nil error is logged and returned, a nil error resets the buffers and
loops. -/
def serveRunFrom (c : GoConn) : Nat → Nat → ServeOutcome
  | _, 0 => ServeOutcome.stillRunning
  | i, fuel + 1 =>
    let r := serveConn (connAt c i)
    if r.panicked then ServeOutcome.panickedOut
    else
      match r.err with
      | some e => ServeOutcome.exited e
      | none => serveRunFrom c (i + 1) fuel

/-- Serve observed from its first iteration. -/
def serveRun (c : GoConn) (fuel : Nat) : ServeOutcome := serveRunFrom c 0 fuel

/-- The default port appended by normalize (stun.DefaultPort rendered by
Sprintf), as characters. -/
def defaultPortChars : List Char := [':', '3', '4', '7', '8']

/-- The wildcard address normalize substitutes for an empty input. -/
def wildcardChars : List Char := ['0', '.', '0', '.', '0', '.', '0']

/-- normalize from main.go lines 142-150, over Go strings modelled as
character lists: an empty address becomes the wildcard address, then the
default port is appended unless the string already contains a colon
(strings.Contains with a one-character separator). -/
def normalize (address : List Char) : List Char :=
  let address1 := if address.length = 0 then wildcardChars else address
  if ':' ∈ address1 then address1 else address1 ++ defaultPortChars

/-- The configuration main dispatches on (from flags or the YAML file). -/
structure GoConfig where
  net : String
  address : List Char
  profile : Bool

/-- Why the process exited fatally. -/
inductive FatalReason where
  | unsupportedNetwork (net : String)
  | listenFailed (e : String)
  | serveError (e : GoError)
deriving DecidableEq

/-- Process-level outcome of main's dispatch, observed for a bounded number
of serve iterations. -/
inductive ProcessOutcome where
  | exitFatal (r : FatalReason)
  | stillServing
  | crashed
deriving DecidableEq

/-- The network switch of main (main.go lines 173-180) composed with
ListenUDPAndServe (lines 131-140): any network other than udp hits
log.Fatalln before ListenPacket runs (the listen argument, which abstracts
the ListenPacket result, is not consulted); for udp, a listen failure or any
error returned by Serve reaches log.Fatal and terminates the process. -/
def mainRun (cfg : GoConfig) (listen : Except String GoConn) (fuel : Nat) : ProcessOutcome :=
  if cfg.net = "udp" then
    match listen with
    | Except.error e => ProcessOutcome.exitFatal (FatalReason.listenFailed e)
    | Except.ok c =>
      match serveRun c fuel with
      | ServeOutcome.stillRunning => ProcessOutcome.stillServing
      | ServeOutcome.exited e => ProcessOutcome.exitFatal (FatalReason.serveError e)
      | ServeOutcome.panickedOut => ProcessOutcome.crashed
  else ProcessOutcome.exitFatal (FatalReason.unsupportedNetwork cfg.net)

/-! Helper lemmas shared by the claim theorems. -/

/-- A buffer the decoder accepts passes the stun.IsMessage check: decode
only succeeds when the buffer reaches the header size and carries the magic
cookie, which is exactly what IsMessage tests. -/
theorem decode_ok_isMessage (b : List Nat) (r : StunMessage)
    (h : decode b = Except.ok r) : isMessage b = true := by
  unfold decode at h
  unfold isMessage
  split at h
  · exact absurd h (by simp)
  · next hlen =>
      split at h
      · exact absurd h (by simp)
      · next hcookie =>
          push_neg at hcookie
          simp only [Nat.not_lt] at hlen
          simp [hlen, hcookie]

/-- A buffer shorter than the header is rejected with unexpectedHeaderEOF. -/
theorem decode_short (b : List Nat) (h : b.length < messageHeaderSize) :
    decode b = Except.error DecodeError.unexpectedHeaderEOF := by
  unfold decode
  simp [h]

/-- A header-sized buffer with a wrong cookie is rejected with
invalidMagicCookie. -/
theorem decode_badCookie (b : List Nat) (hlen : messageHeaderSize ≤ b.length)
    (hc : headerCookie b ≠ magicCookie) :
    decode b = Except.error DecodeError.invalidMagicCookie := by
  unfold decode
  simp [Nat.not_lt.mpr hlen, hc]

/-- When the initial req.Write fails to decode the datagram, serveConn
returns that error without sending or panicking. -/
theorem serveConn_decodeErr (addr : GoAddr) (data : List Nat) (sr : SendResult)
    (e : DecodeError) (h : decode data = Except.error e) :
    serveConn (some (ConnEvent.mk (ReadResult.datagram addr data) sr)) =
      ServeConnResult.mk (some (GoError.decodeErr e)) [] false := by
  unfold serveConn
  simp [h]

/-- A connection every iteration of which makes serveConn return nil keeps
the Serve loop running for any number of iterations. -/
theorem serveRunFrom_no_exit (c : GoConn)
    (h : ∀ i, serveConn (connAt c i) = ServeConnResult.mk none [] false) :
    ∀ fuel i, serveRunFrom c i fuel = ServeOutcome.stillRunning := by
  intro fuel
  induction fuel with
  | zero => intro i; rfl
  | succ n ih =>
      intro i
      unfold serveRunFrom
      rw [h i]
      exact ih (i + 1)

/-! Claim theorems. -/

/-- C1, counterexample: the claim says serveConn returns no error for a
datagram that fails to decode; on a one-byte datagram serveConn in fact
returns a non-nil error, so the failure escapes the Packet Server
boundary. -/
theorem serveConn_decode_failure_escapes_cex :
    (serveConn (some (ConnEvent.mk
      (ReadResult.datagram (GoAddr.udp [127, 0, 0, 1] 1000) [0])
      SendResult.sendOK))).err ≠ none := by decide

/-- C1, amended: for every inbound datagram whose bytes fail to decode as a
STUN message, serveConn returns the decode error (sending nothing and not
panicking) and the serve loop terminates with it on the iteration that read
the datagram, rather than continuing. -/
theorem serveConn_decode_failure_escapes (addr : GoAddr) (data : List Nat)
    (sr : SendResult) (e : DecodeError) (fuel : Nat)
    (h : decode data = Except.error e) :
    serveConn (some (ConnEvent.mk (ReadResult.datagram addr data) sr)) =
      ServeConnResult.mk (some (GoError.decodeErr e)) [] false ∧
    serveRun (GoConn.conn (fun _ => ConnEvent.mk (ReadResult.datagram addr data) sr))
        (fuel + 1) = ServeOutcome.exited (GoError.decodeErr e) := by
  have h1 := serveConn_decodeErr addr data sr e h
  refine ⟨h1, ?_⟩
  unfold serveRun serveRunFrom
  simp only [connAt]
  rw [h1]
  rfl

/-- C1, witness: the amended theorem applied to a concrete 19-byte junk
datagram. -/
theorem serveConn_decode_failure_escapes_witness :
    decode (List.replicate 19 0) = Except.error DecodeError.unexpectedHeaderEOF ∧
    (serveConn (some (ConnEvent.mk
        (ReadResult.datagram (GoAddr.udp [10, 0, 0, 1] 5000) (List.replicate 19 0))
        SendResult.sendOK)) =
      ServeConnResult.mk (some (GoError.decodeErr DecodeError.unexpectedHeaderEOF)) [] false ∧
    serveRun (GoConn.conn (fun _ => ConnEvent.mk
        (ReadResult.datagram (GoAddr.udp [10, 0, 0, 1] 5000) (List.replicate 19 0))
        SendResult.sendOK)) (0 + 1) =
      ServeOutcome.exited (GoError.decodeErr DecodeError.unexpectedHeaderEOF)) :=
  ⟨rfl, serveConn_decode_failure_escapes _ _ _ _ 0 rfl⟩

/-- C2, counterexample: the claim says the serve loop keeps running on a
malformed datagram; on a 0-byte datagram the loop in fact exits on its
first iteration with the decode error. -/
theorem serveConn_malformed_no_response_cex :
    serveRun (GoConn.conn (fun _ => ConnEvent.mk
        (ReadResult.datagram (GoAddr.udp [192, 168, 0, 1] 7) [])
        SendResult.sendOK)) 1 =
      ServeOutcome.exited (GoError.decodeErr DecodeError.unexpectedHeaderEOF) := by decide

/-- C2, amended: for every malformed inbound datagram of the three listed
shapes (0 bytes, 19 bytes, or 20 bytes with a corrupted magic cookie) the
server performs no WriteTo call and does not panic, but serveConn returns
the decode error, so the serve loop terminates rather than keeps
running. -/
theorem serveConn_malformed_no_response (addr : GoAddr) (data : List Nat)
    (sr : SendResult)
    (h : data.length = 0 ∨ data.length = 19 ∨
      (data.length = 20 ∧ headerCookie data ≠ magicCookie)) :
    (serveConn (some (ConnEvent.mk (ReadResult.datagram addr data) sr))).sent = [] ∧
    (serveConn (some (ConnEvent.mk (ReadResult.datagram addr data) sr))).panicked = false ∧
    ((serveConn (some (ConnEvent.mk (ReadResult.datagram addr data) sr))).err).isSome
      = true := by
  obtain ⟨e, he⟩ : ∃ e, decode data = Except.error e := by
    rcases h with h0 | h19 | ⟨h20, hc⟩
    · exact ⟨_, decode_short data (by rw [h0]; decide)⟩
    · exact ⟨_, decode_short data (by rw [h19]; decide)⟩
    · exact ⟨_, decode_badCookie data (by rw [h20]; decide) hc⟩
  rw [serveConn_decodeErr addr data sr e he]
  exact ⟨rfl, rfl, rfl⟩

/-- C2, witness: the amended theorem applied to the concrete empty
datagram. -/
theorem serveConn_malformed_no_response_witness :
    ((List.nil : List Nat).length = 0 ∨ (List.nil : List Nat).length = 19 ∨
      ((List.nil : List Nat).length = 20 ∧ headerCookie [] ≠ magicCookie)) ∧
    ((serveConn (some (ConnEvent.mk
        (ReadResult.datagram (GoAddr.udp [192, 168, 0, 1] 7) []) SendResult.sendOK))).sent
        = [] ∧
     (serveConn (some (ConnEvent.mk
        (ReadResult.datagram (GoAddr.udp [192, 168, 0, 1] 7) []) SendResult.sendOK))).panicked
        = false ∧
     ((serveConn (some (ConnEvent.mk
        (ReadResult.datagram (GoAddr.udp [192, 168, 0, 1] 7) []) SendResult.sendOK))).err).isSome
        = true) :=
  ⟨Or.inl rfl, serveConn_malformed_no_response _ _ _ (Or.inl rfl)⟩

/-- C3, counterexample: the claim says a ReadFrom error makes serveConn
return that error so Serve exits; serveConn in fact returns nil after a
read error. -/
theorem serveConn_read_error_continues_cex :
    (serveConn (some (ConnEvent.mk (ReadResult.readErr ("boom"))
      SendResult.sendOK))).err = none := by decide

/-- C3, amended: whenever the blocking ReadFrom returns an error, the server
logs it and continues the serve loop: serveConn returns nil, no response is
sent, and a connection that keeps failing its reads keeps the loop running
for any number of iterations instead of terminating it. -/
theorem serveConn_read_error_continues (e : String) (sr : SendResult) (fuel : Nat) :
    serveConn (some (ConnEvent.mk (ReadResult.readErr e) sr)) =
      ServeConnResult.mk none [] false ∧
    serveRun (GoConn.conn (fun _ => ConnEvent.mk (ReadResult.readErr e) sr)) fuel =
      ServeOutcome.stillRunning := by
  refine ⟨rfl, ?_⟩
  exact serveRunFrom_no_exit
    (GoConn.conn (fun _ => ConnEvent.mk (ReadResult.readErr e) sr)) (fun i => rfl) fuel 0

/-- C4: whenever WriteTo returns an error on a datagram that decoded and was
processed (a UDP sender, so a response was built and sent), serveConn
returns the send error and the Serve loop exits with it on that
iteration. -/
theorem serveConn_send_error_fatal (ip : List Nat) (port : Nat) (data : List Nat)
    (r : StunMessage) (e : String) (fuel : Nat)
    (hdec : decode data = Except.ok r) :
    serveConn (some (ConnEvent.mk (ReadResult.datagram (GoAddr.udp ip port) data)
        (SendResult.sendFail e))) =
      ServeConnResult.mk (some (GoError.sendErr e))
        [(buildBindingSuccess r ip port, GoAddr.udp ip port)] false ∧
    serveRun (GoConn.conn (fun _ => ConnEvent.mk
        (ReadResult.datagram (GoAddr.udp ip port) data) (SendResult.sendFail e)))
        (fuel + 1) = ServeOutcome.exited (GoError.sendErr e) := by
  have him := decode_ok_isMessage data r hdec
  have hbp : basicProcess (GoAddr.udp ip port) data =
      ProcOutcome.ok (buildBindingSuccess r ip port) := by
    unfold basicProcess
    simp [him, hdec]
  have h1 : serveConn (some (ConnEvent.mk
      (ReadResult.datagram (GoAddr.udp ip port) data) (SendResult.sendFail e))) =
      ServeConnResult.mk (some (GoError.sendErr e))
        [(buildBindingSuccess r ip port, GoAddr.udp ip port)] false := by
    unfold serveConn
    simp [hdec, hbp]
  refine ⟨h1, ?_⟩
  unfold serveRun serveRunFrom
  simp only [connAt]
  rw [h1]
  rfl

/-- C4, witness: the theorem applied to a concrete 20-byte binding request
whose send fails. -/
theorem serveConn_send_error_fatal_witness :
    decode [0, 1, 0, 0, 33, 18, 164, 66, 1, 2, 3, 4, 5, 6, 7, 8, 9, 10, 11, 12] =
      Except.ok (StunMessage.mk 1 [1, 2, 3, 4, 5, 6, 7, 8, 9, 10, 11, 12] []) ∧
    (serveConn (some (ConnEvent.mk
        (ReadResult.datagram (GoAddr.udp [127, 0, 0, 1] 9)
          [0, 1, 0, 0, 33, 18, 164, 66, 1, 2, 3, 4, 5, 6, 7, 8, 9, 10, 11, 12])
        (SendResult.sendFail ("boom")))) =
      ServeConnResult.mk (some (GoError.sendErr ("boom")))
        [(buildBindingSuccess (StunMessage.mk 1 [1, 2, 3, 4, 5, 6, 7, 8, 9, 10, 11, 12] [])
            [127, 0, 0, 1] 9, GoAddr.udp [127, 0, 0, 1] 9)] false ∧
    serveRun (GoConn.conn (fun _ => ConnEvent.mk
        (ReadResult.datagram (GoAddr.udp [127, 0, 0, 1] 9)
          [0, 1, 0, 0, 33, 18, 164, 66, 1, 2, 3, 4, 5, 6, 7, 8, 9, 10, 11, 12])
        (SendResult.sendFail ("boom")))) (0 + 1) =
      ServeOutcome.exited (GoError.sendErr ("boom"))) :=
  ⟨rfl, serveConn_send_error_fatal [127, 0, 0, 1] 9 _ _ ("boom") 0 rfl⟩

/-- C5: for every datagram that decodes to a binding request r and every
caller-supplied sender address (ip, port), basicProcess builds a binding
success response carrying r's 12-byte transaction id and exactly the
attribute sequence software-identifier, XOR-mapped (observed) address equal
to the caller-supplied (ip, port), and the fingerprint integrity checksum
last.  (The observed address comes from the addr argument alone; nothing in
the request body is consulted for it.) -/
theorem basicProcess_builds_binding_success (ip : List Nat) (port : Nat)
    (data : List Nat) (r : StunMessage)
    (hdec : decode data = Except.ok r) (_hreq : r.typ = bindingRequestType) :
    basicProcess (GoAddr.udp ip port) data =
      ProcOutcome.ok (BuiltMessage.mk bindingSuccessType r.transactionID
        [Attr.software softwareName, Attr.xorMappedAddress ip port,
          Attr.fingerprintAttr]) := by
  have him := decode_ok_isMessage data r hdec
  unfold basicProcess
  simp [him, hdec, buildBindingSuccess, buildApply, applySetter, emptyMessage]

/-- C5, witness: the theorem applied to a concrete attribute-free binding
request. -/
theorem basicProcess_builds_binding_success_witness :
    decode [0, 1, 0, 0, 33, 18, 164, 66, 9, 8, 7, 6, 5, 4, 3, 2, 1, 0, 1, 2] =
      Except.ok (StunMessage.mk 1 [9, 8, 7, 6, 5, 4, 3, 2, 1, 0, 1, 2] []) ∧
    (StunMessage.mk 1 [9, 8, 7, 6, 5, 4, 3, 2, 1, 0, 1, 2] ([] : List RawAttr)).typ
      = bindingRequestType ∧
    basicProcess (GoAddr.udp [203, 0, 113, 7] 3000)
        [0, 1, 0, 0, 33, 18, 164, 66, 9, 8, 7, 6, 5, 4, 3, 2, 1, 0, 1, 2] =
      ProcOutcome.ok (BuiltMessage.mk bindingSuccessType
        [9, 8, 7, 6, 5, 4, 3, 2, 1, 0, 1, 2]
        [Attr.software softwareName, Attr.xorMappedAddress [203, 0, 113, 7] 3000,
          Attr.fingerprintAttr]) :=
  ⟨rfl, rfl, basicProcess_builds_binding_success [203, 0, 113, 7] 3000
    [0, 1, 0, 0, 33, 18, 164, 66, 9, 8, 7, 6, 5, 4, 3, 2, 1, 0, 1, 2]
    (StunMessage.mk 1 [9, 8, 7, 6, 5, 4, 3, 2, 1, 0, 1, 2] []) rfl rfl⟩

/-- C8: for every sender address whose runtime variant is not the supported
datagram variant, and every datagram that passes the STUN checks (so that
control reaches the address type switch), basicProcess panics instead of
returning a recoverable error. -/
theorem basicProcess_non_udp_addr (a : GoAddr) (data : List Nat) (r : StunMessage)
    (ha : a.isUDP = false) (hdec : decode data = Except.ok r) :
    basicProcess a data = ProcOutcome.panickedUnknownAddr a := by
  have him := decode_ok_isMessage data r hdec
  unfold basicProcess
  cases a with
  | udp ip port => simp [GoAddr.isUDP] at ha
  | tcp ip port => simp [him, hdec]
  | other s => simp [him, hdec]

/-- C8, witness: the theorem applied to a concrete TCP sender address and a
valid binding request. -/
theorem basicProcess_non_udp_addr_witness :
    (GoAddr.tcp [1, 2, 3, 4] 80).isUDP = false ∧
    decode [0, 1, 0, 0, 33, 18, 164, 66, 1, 2, 3, 4, 5, 6, 7, 8, 9, 10, 11, 12] =
      Except.ok (StunMessage.mk 1 [1, 2, 3, 4, 5, 6, 7, 8, 9, 10, 11, 12] []) ∧
    basicProcess (GoAddr.tcp [1, 2, 3, 4] 80)
        [0, 1, 0, 0, 33, 18, 164, 66, 1, 2, 3, 4, 5, 6, 7, 8, 9, 10, 11, 12] =
      ProcOutcome.panickedUnknownAddr (GoAddr.tcp [1, 2, 3, 4] 80) :=
  ⟨rfl, rfl, basicProcess_non_udp_addr (GoAddr.tcp [1, 2, 3, 4] 80) _ _ rfl rfl⟩

/-- C10: serveConn on a nil connection returns nil immediately, performing
no send and not panicking, and the Serve loop over the nil connection is
still running after any number of iterations, never returning an error. -/
theorem serveConn_nil_loops (fuel : Nat) :
    serveConn none = ServeConnResult.mk none [] false ∧
    serveRun GoConn.nilConn fuel = ServeOutcome.stillRunning := by
  refine ⟨rfl, ?_⟩
  exact serveRunFrom_no_exit GoConn.nilConn (fun i => rfl) fuel 0

/-- An address already containing a colon is left unchanged by normalize. -/
theorem normalize_of_mem (a : List Char) (h : ':' ∈ a) : normalize a = a := by
  have hne : a.length ≠ 0 := by
    intro hl
    exact List.ne_nil_of_mem h (List.eq_nil_of_length_eq_zero hl)
  unfold normalize
  simp only []
  rw [if_neg hne, if_pos h]

/-- A nonempty address without a colon gets the default port appended. -/
theorem normalize_of_not_mem (a : List Char) (h1 : a ≠ []) (h2 : ':' ∉ a) :
    normalize a = a ++ defaultPortChars := by
  have hne : a.length ≠ 0 := fun hl => h1 (List.eq_nil_of_length_eq_zero hl)
  unfold normalize
  simp only []
  rw [if_neg hne, if_neg h2]

/-- The result of normalize always contains a colon. -/
theorem mem_normalize (a : List Char) : ':' ∈ normalize a := by
  unfold normalize
  simp only []
  by_cases h0 : a.length = 0
  · rw [if_pos h0]
    rw [if_neg (by decide : ¬(':' ∈ wildcardChars))]
    exact List.mem_append_right _ (by decide)
  · rw [if_neg h0]
    by_cases hc : ':' ∈ a
    · rw [if_pos hc]; exact hc
    · rw [if_neg hc]; exact List.mem_append_right _ (by decide)

/-- C6: normalize maps the empty address to the wildcard address with the
default port appended; appends the default port to a nonempty address that
contains no colon (no port part); and leaves an address that already has a
colon-delimited port part unchanged. -/
theorem normalize_cases (a : List Char) :
    (a = [] → normalize a = wildcardChars ++ defaultPortChars) ∧
    (a ≠ [] → ':' ∉ a → normalize a = a ++ defaultPortChars) ∧
    (':' ∈ a → normalize a = a) := by
  refine ⟨?_, normalize_of_not_mem a, normalize_of_mem a⟩
  intro h
  subst h
  rfl

/-- C6, witness: the three branches of the theorem at concrete inputs. -/
theorem normalize_cases_witness :
    normalize [] = wildcardChars ++ defaultPortChars ∧
    normalize ['h', 'o', 's', 't'] = ['h', 'o', 's', 't'] ++ defaultPortChars ∧
    normalize ['a', ':', '1'] = ['a', ':', '1'] :=
  ⟨(normalize_cases []).1 rfl,
   (normalize_cases ['h', 'o', 's', 't']).2.1 (by decide) (by decide),
   (normalize_cases ['a', ':', '1']).2.2 (by decide)⟩

/-- C9: normalize is idempotent, because its result is always nonempty and
always contains a colon, so a second application changes nothing. -/
theorem normalize_idempotent (a : List Char) :
    normalize (normalize a) = normalize a ∧
    normalize a ≠ [] ∧ ':' ∈ normalize a := by
  have hmem := mem_normalize a
  exact ⟨normalize_of_mem _ hmem, List.ne_nil_of_mem hmem, hmem⟩

/-- C7: any configured network other than udp makes main exit fatally with
the unsupported-network message, whatever the (never-consulted) listen
outcome would have been; and under the udp network, an error returned by the
Serve loop reaches log.Fatal and terminates the process. -/
theorem main_dispatch_fatal (cfg : GoConfig) (listen : Except String GoConn)
    (fuel : Nat) :
    (cfg.net ≠ "udp" →
      mainRun cfg listen fuel =
        ProcessOutcome.exitFatal (FatalReason.unsupportedNetwork cfg.net)) ∧
    (∀ c e, cfg.net = "udp" → listen = Except.ok c →
      serveRun c fuel = ServeOutcome.exited e →
      mainRun cfg listen fuel =
        ProcessOutcome.exitFatal (FatalReason.serveError e)) := by
  constructor
  · intro h
    unfold mainRun
    rw [if_neg h]
  · intro c e h1 h2 h3
    subst h2
    unfold mainRun
    rw [if_pos h1]
    simp [h3]

/-- C7, witness: the theorem applied to a tcp configuration, and to a udp
configuration whose serve loop exits with a decode error on its first
iteration. -/
theorem main_dispatch_fatal_witness :
    mainRun (GoConfig.mk ("tcp") [] false) (Except.ok GoConn.nilConn) 0 =
      ProcessOutcome.exitFatal (FatalReason.unsupportedNetwork ("tcp")) ∧
    mainRun (GoConfig.mk ("udp") [] false)
        (Except.ok (GoConn.conn (fun _ => ConnEvent.mk
          (ReadResult.datagram (GoAddr.udp [1, 2, 3, 4] 5) []) SendResult.sendOK))) 1 =
      ProcessOutcome.exitFatal (FatalReason.serveError
        (GoError.decodeErr DecodeError.unexpectedHeaderEOF)) :=
  ⟨(main_dispatch_fatal (GoConfig.mk ("tcp") [] false) (Except.ok GoConn.nilConn) 0).1
      (by decide),
   (main_dispatch_fatal (GoConfig.mk ("udp") [] false) _ 1).2 _ _ rfl rfl (by decide)⟩

end Stund
